import Mathlib

/-!
Verification of the n8n WebSocket standalone registry.

This file gives a shallow embedding of the connection registry and its
collaborators and proves properties of the embedded code:

* `WebSocketRegistry` (src/nodes/WebSocketRegistry.ts): server entries keyed by
  a server id, close state machine, execution/workflow reference counting,
  broadcast operations.
* the heartbeat cycle of the dist registry variant (src/unnamed/part_001).
* the response node's per-client send-with-retry loop (src/unnamed/part_005).
* `validateWebSocketAuthentication` (src/unnamed/part_005).

JavaScript `Map`s are embedded as association lists with unique keys in
insertion order; `Set`s of strings as duplicate-free lists in insertion order.
Timestamps are abstract `Nat` values passed in as a `now` parameter.
-/

set_option autoImplicit false

universe u

/-- Lookup of the first binding of a key in an association list, the embedding
of `Map.get`. -/
def lookupA {α : Type u} : List (String × α) → String → Option α
  | [], _ => none
  | p :: rest, k => if p.1 = k then some p.2 else lookupA rest k

/-- Replace the first binding of a key, keeping insertion order: the embedding
of `Map.set` on a key that is already present. -/
def setA {α : Type u} : List (String × α) → String → α → List (String × α)
  | [], _, _ => []
  | p :: rest, k, v => if p.1 = k then (k, v) :: rest else p :: setA rest k v

/-- Remove the first binding of a key: the embedding of `Map.delete`. -/
def eraseFirstA {α : Type u} : List (String × α) → String → List (String × α)
  | [], _ => []
  | p :: rest, k => if p.1 = k then rest else p :: eraseFirstA rest k

/-- The embedding of `Map.set`: replace the binding when the key is present,
append it otherwise. -/
def insertA {α : Type u} (m : List (String × α)) (k : String) (v : α) : List (String × α) :=
  match lookupA m k with
  | some _ => setA m k v
  | none => m ++ [(k, v)]

/-- The embedding of `Set.add` on a set of strings kept as a duplicate-free
list. -/
def addS (xs : List String) (x : String) : List String :=
  if xs.contains x then xs else xs ++ [x]

/-- The embedding of `Set.delete` on a set of strings. -/
def removeS (xs : List String) (x : String) : List String :=
  xs.filter (fun y => y != x)

/-- readyState of a `ws` WebSocket (CONNECTING, OPEN, CLOSING, CLOSED). -/
inductive ReadyState where
  | connecting
  | opened
  | closing
  | closed
deriving DecidableEq, Repr

/-- One connected client socket as the registry observes it: its readyState
and whether a `send` call on it currently throws. -/
structure Client where
  readyState : ReadyState
  sendFails : Bool
deriving DecidableEq, Repr

/-- `IServerEntry` of src/nodes/WebSocketRegistry.ts. The `wss` listener is
represented by its options and its bound address: `port` and `path` are the
`WebSocket.ServerOptions` the listener was constructed with, and `address` is
what `wss.address()` reports — `some boundPort` while the listener is bound
and listening, `none` when `wss.address()` is not an object (no successful
bind). -/
structure ServerEntry where
  port : Nat
  path : String
  address : Option Nat
  clients : List (String × Client)
  activeExecutions : List String
  activeWorkflows : List String
  serverSharing : String
  createdAt : Nat
  lastActivity : Nat
deriving DecidableEq, Repr

/-- The registry's `servers` map. -/
abbrev Registry := List (String × ServerEntry)

/-- `IServerConfig` of src/nodes/WebSocketRegistry.ts (authentication is
handled by the listener, not by the registry state). -/
structure ServerConfig where
  port : Nat
  path : String
  serverSharing : Option String := none
deriving DecidableEq, Repr

/-- `config.serverSharing || 'shared'`. -/
def sharingOf (cfg : ServerConfig) : String :=
  cfg.serverSharing.getD "shared"

/-- `ICloseOptions` of src/nodes/WebSocketRegistry.ts. -/
structure CloseOptions where
  keepClientsAlive : Option Bool := none
  executionId : Option String := none
  reason : Option String := none
deriving DecidableEq, Repr

/-- `options.keepClientsAlive !== false`: defaults to true unless explicitly
set to false. -/
def keepClientsAliveOf (opts : CloseOptions) : Bool :=
  match opts.keepClientsAlive with
  | some false => false
  | _ => true

/-- The close decision of `closeServer`:
`serverSharing === 'exclusive' || (!hasActiveExecutions && !hasActiveWorkflows)
 || !keepClientsAlive`. -/
def shouldCompletelyClose (e : ServerEntry) (opts : CloseOptions) : Bool :=
  let hasActiveExecutions := decide (e.activeExecutions.length > 0)
  let hasActiveWorkflows := decide (e.activeWorkflows.length > 0)
  (e.serverSharing == "exclusive") || (!hasActiveExecutions && !hasActiveWorkflows) ||
    !keepClientsAliveOf opts

/-- Ids of the clients whose socket is OPEN; these are the connections that the
hard-close branch sends a close frame (code 1000) to. -/
def openClientIds (clients : List (String × Client)) : List String :=
  (clients.filter (fun p => p.2.readyState == ReadyState.opened)).map (fun p => p.1)

/-- Result of `closeServer`: the registry afterwards and the observable
effects (which clients were sent a close frame, whether the listener was
unbound and the entry removed). -/
structure CloseResult where
  servers : Registry
  hardClosed : Bool
  closedClients : List String
  listenerUnbound : Bool
deriving DecidableEq, Repr

/-- `WebSocketRegistry.closeServer`. An unknown server id only logs and
returns. A hard close sends a close frame to every OPEN client (errors during
an individual close are caught and the loop continues), closes the listener
and deletes the entry; a soft close leaves the whole state untouched.
`saveRegistry` writes a diagnostic file and has no in-memory effect. -/
def closeServer (reg : Registry) (serverId : String) (opts : CloseOptions) : CloseResult :=
  match lookupA reg serverId with
  | none => ⟨reg, false, [], false⟩
  | some e =>
    if shouldCompletelyClose e opts then
      ⟨eraseFirstA reg serverId, true, openClientIds e.clients, true⟩
    else
      ⟨reg, false, [], false⟩

/-- `updateLastActivity`: refresh the entry's `lastActivity` timestamp. -/
def updateLastActivity (reg : Registry) (serverId : String) (now : Nat) : Registry :=
  match lookupA reg serverId with
  | some e => setA reg serverId { e with lastActivity := now }
  | none => reg

/-- `registerExecution`: guarded by `if (server && executionId)`; the empty
string is the falsy string. -/
def registerExecution (reg : Registry) (serverId executionId : String) (now : Nat) : Registry :=
  match lookupA reg serverId with
  | some e =>
    if executionId = "" then reg
    else setA reg serverId
      { e with activeExecutions := addS e.activeExecutions executionId, lastActivity := now }
  | none => reg

/-- Result of an unregister call: the registry afterwards, and the close that
a `setTimeout` scheduled, if any, as (delay in ms, close options). -/
structure UnregResult where
  servers : Registry
  scheduledClose : Option (Nat × CloseOptions)
deriving DecidableEq, Repr

/-- `unregisterExecution`: removes the execution id and refreshes activity;
it never schedules a close. -/
def unregisterExecution (reg : Registry) (serverId executionId : String) (now : Nat) : UnregResult :=
  match lookupA reg serverId with
  | some e =>
    if executionId = "" then ⟨reg, none⟩
    else
      ⟨setA reg serverId
        { e with activeExecutions := removeS e.activeExecutions executionId, lastActivity := now },
       none⟩
  | none => ⟨reg, none⟩

/-- `registerWorkflow`: same guard pattern for `activeWorkflows`. -/
def registerWorkflow (reg : Registry) (serverId workflowId : String) (now : Nat) : Registry :=
  match lookupA reg serverId with
  | some e =>
    if workflowId = "" then reg
    else setA reg serverId
      { e with activeWorkflows := addS e.activeWorkflows workflowId, lastActivity := now }
  | none => reg

/-- `unregisterWorkflow`: removes the workflow id; when that leaves
`activeWorkflows` empty on an `'exclusive'` entry, a
`closeServer(serverId, { keepClientsAlive: false, reason:
'last_workflow_removed' })` is scheduled with `setTimeout(..., 1000)`. -/
def unregisterWorkflow (reg : Registry) (serverId workflowId : String) (now : Nat) : UnregResult :=
  match lookupA reg serverId with
  | some e =>
    if workflowId = "" then ⟨reg, none⟩
    else
      let wf := removeS e.activeWorkflows workflowId
      ⟨setA reg serverId { e with activeWorkflows := wf, lastActivity := now },
       if wf.length == 0 && (e.serverSharing == "exclusive") then
         some (1000, { keepClientsAlive := some false, reason := some "last_workflow_removed" })
       else none⟩
  | none => ⟨reg, none⟩

/-- The entry that `createServer` builds from a config: fresh maps and sets,
sharing mode defaulted to `'shared'`, both timestamps set to creation time.
Its `address` reflects the async bind outcome: `wss.address()` reports the
bound port when the bind succeeds, and is not an object (here `none`) when the
port was already in use. -/
def freshEntry (cfg : ServerConfig) (now : Nat) (portsInUse : List Nat) : ServerEntry :=
  { port := cfg.port
  , path := cfg.path
  , address := if portsInUse.contains cfg.port then none else some cfg.port
  , clients := []
  , activeExecutions := []
  , activeWorkflows := []
  , serverSharing := sharingOf cfg
  , createdAt := now
  , lastActivity := now }

/-- `createServer`: constructs the `WebSocket.Server` (which never throws
synchronously; a bind failure such as EADDRINUSE is emitted later on the
`'error'` event, whose installed handler only logs), registers the entry and
returns the listener. The returned Bool records whether the bind failed and
the EADDRINUSE log fired, given the set of ports already in use. -/
def createServer (reg : Registry) (serverId : String) (cfg : ServerConfig) (now : Nat)
    (portsInUse : List Nat) : Registry × ServerEntry × Bool :=
  let e := freshEntry cfg now portsInUse
  (insertA reg serverId e, e, portsInUse.contains cfg.port)

/-- The config-change test of `getOrCreateServer`:
`currentPort !== config.port || currentPath !== config.path ||
 currentSharing !== (config.serverSharing || 'shared')`, where `currentPort`
is `address.port` of the bound listener. -/
def configChanged (currentPort : Nat) (e : ServerEntry) (cfg : ServerConfig) : Bool :=
  (currentPort != cfg.port) || (e.path != cfg.path) || (e.serverSharing != sharingOf cfg)

/-- Result of `getOrCreateServer`: the registry afterwards, the bound address
of the returned listener (`none` when it reports no bound address), whether a
new `WebSocket.Server` was constructed (`didBind`), whether a stale entry was
hard-closed first (with the close frames it sent), and whether a bind failure
was logged. -/
structure GocResult where
  servers : Registry
  listenerPort : Option Nat
  listenerPath : String
  didBind : Bool
  closedStale : Bool
  closedClients : List String
  bindErrorLogged : Bool
deriving DecidableEq, Repr

/-- `WebSocketRegistry.getOrCreateServer`. `loadRegistry` at the start only
logs and recreates nothing. For an existing entry the config-change check runs
only under the guard `if (address && typeof address === "object")`: a bound
entry whose (port, path, sharing) differ from the config is hard-closed via
`closeServer` with `keepClientsAlive: false` and recreated; a bound entry that
matches, and any entry whose `wss.address()` is not an object, falls through
to `updateLastActivity` and is returned as is. An absent id goes straight to
`createServer`. -/
def getOrCreateServer (reg : Registry) (serverId : String) (cfg : ServerConfig) (now : Nat)
    (portsInUse : List Nat) : GocResult :=
  match lookupA reg serverId with
  | some e =>
    match e.address with
    | some currentPort =>
      if configChanged currentPort e cfg then
        let c := closeServer reg serverId
          { keepClientsAlive := some false, reason := some "config_change" }
        let r := createServer c.servers serverId cfg now portsInUse
        { servers := r.1, listenerPort := r.2.1.address, listenerPath := r.2.1.path
        , didBind := true, closedStale := true, closedClients := c.closedClients
        , bindErrorLogged := r.2.2 }
      else
        { servers := updateLastActivity reg serverId now
        , listenerPort := some currentPort, listenerPath := e.path
        , didBind := false, closedStale := false, closedClients := []
        , bindErrorLogged := false }
    | none =>
      { servers := updateLastActivity reg serverId now
      , listenerPort := none, listenerPath := e.path
      , didBind := false, closedStale := false, closedClients := []
      , bindErrorLogged := false }
  | none =>
    let r := createServer reg serverId cfg now portsInUse
    { servers := r.1, listenerPort := r.2.1.address, listenerPath := r.2.1.path
    , didBind := true, closedStale := false, closedClients := []
    , bindErrorLogged := r.2.2 }

/-- Result of `broadcastToServer`. The TS function's return type is `void`:
`returned` is its return value. `sentCount` and `errorCount` are the local
counters it logs, `callbackCalls` how often the optional callback ran and
`sentTo` the clients that received the message. -/
structure BroadcastResult where
  servers : Registry
  found : Bool
  sentTo : List String
  sentCount : Nat
  errorCount : Nat
  callbackCalls : Nat
  returned : Unit
deriving DecidableEq, Repr

/-- `WebSocketRegistry.broadcastToServer`. An unknown id logs and returns.
Otherwise the loop visits every client: an OPEN client is sent the message
(`sentCount++` and the callback after a successful send; a throwing send is
caught, `errorCount++`, and the loop continues), a non-OPEN client is skipped.
A send succeeds exactly on an OPEN client whose transport does not fail. -/
def broadcastToServer (reg : Registry) (serverId : String) (_message : String) (now : Nat) :
    BroadcastResult :=
  match lookupA reg serverId with
  | none =>
    { servers := reg, found := false, sentTo := [], sentCount := 0
    , errorCount := 0, callbackCalls := 0, returned := () }
  | some e =>
    let ok := e.clients.filter (fun p => p.2.readyState == ReadyState.opened && !p.2.sendFails)
    let bad := e.clients.filter (fun p => p.2.readyState == ReadyState.opened && p.2.sendFails)
    { servers := updateLastActivity reg serverId now
    , found := true
    , sentTo := ok.map (fun p => p.1)
    , sentCount := ok.length
    , errorCount := bad.length
    , callbackCalls := ok.length
    , returned := () }

/-- `WebSocketRegistry.broadcastToClient`: false when the server or client is
unknown, when the socket is not OPEN, or when the send throws (caught); true
after a successful send, which also refreshes activity. -/
def broadcastToClient (reg : Registry) (serverId clientId : String) (_message : String)
    (now : Nat) : Registry × Bool :=
  match lookupA reg serverId with
  | none => (reg, false)
  | some e =>
    match lookupA e.clients clientId with
    | none => (reg, false)
    | some c =>
      if c.readyState = ReadyState.opened then
        if c.sendFails then (reg, false)
        else (updateLastActivity reg serverId now, true)
      else (reg, false)

/-- A client as the heartbeat of the dist registry variant
(src/unnamed/part_001) sees it: its `isAlive` liveness flag. -/
structure HBClient where
  isAlive : Bool
deriving DecidableEq, Repr

/-- Result of one heartbeat cycle: the client table afterwards, the clients
that were terminated, and the clients a ping was sent to. -/
structure HBResult where
  clients : List (String × HBClient)
  terminated : List String
  pinged : List String
deriving DecidableEq, Repr

/-- One cycle of the `setInterval(..., 30000)` heartbeat of
src/unnamed/part_001: for each client, if `isAlive === false` it is deleted
from the table and `terminate()`d; otherwise `isAlive` is set to false and a
ping is sent. -/
def heartbeatStep (cs : List (String × HBClient)) : HBResult :=
  { clients := cs.filterMap (fun p => if p.2.isAlive then some (p.1, ⟨false⟩) else none)
  , terminated := (cs.filter (fun p => !p.2.isAlive)).map (fun p => p.1)
  , pinged := (cs.filter (fun p => p.2.isAlive)).map (fun p => p.1) }

/-- The `'pong'` handler of src/unnamed/part_001: resets the client's
liveness to positive. -/
def pongReceived (cs : List (String × HBClient)) (clientId : String) :
    List (String × HBClient) :=
  match lookupA cs clientId with
  | some _ => setA cs clientId ⟨true⟩
  | none => cs

/-- An error observed by one send attempt of the response node's retry loop
(src/unnamed/part_005): either the readyState guard threw because the socket
was not OPEN, or the transport send reported an error. -/
inductive SendErr where
  | notOpenState (s : ReadyState)
  | transport (msg : String)
deriving DecidableEq, Repr

/-- Errors the response node's per-client send path can surface. -/
inductive DispatchError where
  | clientNotFound (clientId serverId : String)
  | sendFailed (lastError : Option SendErr)
deriving DecidableEq, Repr

deriving instance DecidableEq for Except

/-- Outcome of the per-client send path: the surfaced result, the number of
attempts that ran, and the total retry delay awaited in milliseconds. -/
structure SendOutcome where
  result : Except DispatchError Unit
  attempts : Nat
  totalDelayMs : Nat
deriving DecidableEq, Repr

/-- `const maxRetries = 3` of src/unnamed/part_005. -/
def maxRetries : Nat := 3

/-- `const retryDelay = 500` of src/unnamed/part_005. -/
def retryDelay : Nat := 500

/-- The retry loop `for (let attempt = 0; attempt < maxRetries; attempt++)`
of src/unnamed/part_005: every attempt after the first is preceded by a
`retryDelay` wait; a failing attempt (readyState guard or transport error,
given by `env` per attempt index) records `lastError` and continues; a
successful attempt breaks with success. -/
def sendAttemptLoop (env : Nat → Option SendErr) :
    Nat → Nat → Option SendErr → Nat → SendOutcome
  | attempt, 0, lastErr, delayMs =>
    { result := Except.error (DispatchError.sendFailed lastErr)
    , attempts := attempt, totalDelayMs := delayMs }
  | attempt, Nat.succ remaining, _lastErr, delayMs =>
    let d := delayMs + (if attempt == 0 then 0 else retryDelay)
    match env attempt with
    | none =>
      { result := Except.ok (), attempts := attempt + 1, totalDelayMs := d }
    | some err => sendAttemptLoop env (attempt + 1) remaining (some err) d

/-- `WebSocketRegistry.getClient`: refreshes activity when the server exists
and returns the client handle, if any. -/
def getClient (reg : Registry) (serverId clientId : String) (now : Nat) :
    Registry × Option Client :=
  match lookupA reg serverId with
  | some e => (updateLastActivity reg serverId now, lookupA e.clients clientId)
  | none => (reg, none)

/-- The specific-client send path of `WebSocketResponse.execute`
(src/unnamed/part_005): `registry.getClient` misses throw immediately, with no
attempt and no delay; otherwise the retry loop runs, success on any attempt is
overall success, and after `maxRetries` failed attempts the last error is
thrown (`if (!success) throw lastError`). -/
def sendToClientWithRetry (reg : Registry) (serverId clientId : String) (now : Nat)
    (env : Nat → Option SendErr) : SendOutcome :=
  match (getClient reg serverId clientId now).2 with
  | none =>
    { result := Except.error (DispatchError.clientNotFound clientId serverId)
    , attempts := 0, totalDelayMs := 0 }
  | some _ => sendAttemptLoop env 0 maxRetries none 0

/-- The decrypted `httpBasicAuth` credential (`user`, `password`). -/
structure BasicCredData where
  user : String
  password : String
deriving DecidableEq, Repr

/-- The decrypted `httpHeaderAuth` credential (`name`, `value`). -/
structure HeaderCredData where
  name : String
  value : String
deriving DecidableEq, Repr

/-- The decrypted `jwtAuth` credential. -/
structure JwtCredData where
  keyType : String
  publicKey : String
  secret : String
  algorithm : String
deriving DecidableEq, Repr

/-- The credential store behind `getCredentials(type)`: `none` models both an
absent credential and a throwing lookup (the code wraps the call in
`try ... catch` and proceeds with `undefined`). -/
structure CredStore where
  httpBasicAuth : Option BasicCredData := none
  httpHeaderAuth : Option HeaderCredData := none
  jwtAuth : Option JwtCredData := none
deriving DecidableEq, Repr

/-- A WebSocket upgrade request as the verification function reads it:
`basicCreds` is what the `basic-auth` library parses out of the request
(`none` for a missing or malformed Authorization header), `headers` the
header map with the lowercase names Node delivers, and `authorization` the
raw `authorization` header. -/
structure UpgradeReq where
  basicCreds : Option (String × String) := none
  headers : List (String × String) := []
  authorization : Option String := none
deriving DecidableEq, Repr

/-- `WebSocketAuthorizationError` of src/unnamed/part_005: an HTTP response
code plus optional message. -/
structure AuthErr where
  responseCode : Nat
  message : Option String
deriving DecidableEq, Repr

/-- The token extraction of the jwtAuth branch:
`req.headers.authorization?.split(' ')[1]`, with the empty string falsy. -/
def jwtTokenOf (req : UpgradeReq) : Option String :=
  match req.authorization with
  | none => none
  | some h =>
    match (h.splitOn " ").get? 1 with
    | some t => if t = "" then none else some t
    | none => none

/-- The verification key selection of the jwtAuth branch: the secret for a
passphrase key, the public key otherwise. -/
def jwtKeyOf (ex : JwtCredData) : String :=
  if ex.keyType = "passphrase" then ex.secret else ex.publicKey

/-- `validateWebSocketAuthentication` of src/unnamed/part_005. `jwtVerify`
embeds `jwt.verify(token, key, options)`: it returns the decoded claims or the
error message that the catch block wraps in a 403. Basic- and header-auth
successes return `undefined` (here `none`); a jwtAuth success returns the
decoded payload. An unknown mode falls through every branch and returns. -/
def validateWebSocketAuthentication (req : UpgradeReq) (authentication : String)
    (creds : CredStore) (jwtVerify : String → String → String → Except String (List (String × String))) :
    Except AuthErr (Option (List (String × String))) :=
  if authentication = "none" then Except.ok none
  else if authentication = "basicAuth" then
    match creds.httpBasicAuth with
    | none => Except.error ⟨500, some "No authentication data defined on node!"⟩
    | some ex =>
      if ex.user = "" ∨ ex.password = "" then
        Except.error ⟨500, some "No authentication data defined on node!"⟩
      else
        match req.basicCreds with
        | none => Except.error ⟨401, none⟩
        | some provided =>
          if provided.1 = ex.user ∧ provided.2 = ex.password then Except.ok none
          else Except.error ⟨403, none⟩
  else if authentication = "headerAuth" then
    match creds.httpHeaderAuth with
    | none => Except.error ⟨500, some "No authentication data defined on node!"⟩
    | some ex =>
      if ex.name = "" ∨ ex.value = "" then
        Except.error ⟨500, some "No authentication data defined on node!"⟩
      else
        match lookupA req.headers ex.name.toLower with
        | some v => if v = ex.value then Except.ok none else Except.error ⟨403, none⟩
        | none => Except.error ⟨403, none⟩
  else if authentication = "jwtAuth" then
    match creds.jwtAuth with
    | none => Except.error ⟨500, some "No authentication data defined on node!"⟩
    | some ex =>
      match jwtTokenOf req with
      | none => Except.error ⟨401, some "No token provided"⟩
      | some tok =>
        match jwtVerify tok (jwtKeyOf ex) ex.algorithm with
        | Except.ok payload => Except.ok (some payload)
        | Except.error m => Except.error ⟨403, some m⟩
  else Except.ok none

/-- A concrete exclusive-mode entry with one OPEN client and live references,
used to exercise the close state machine. -/
def entryExcl : ServerEntry :=
  { port := 5680, path := "/ws", address := some 5680
  , clients := [("abc123", ⟨ReadyState.opened, false⟩)]
  , activeExecutions := ["e1"], activeWorkflows := ["w1"]
  , serverSharing := "exclusive", createdAt := 0, lastActivity := 0 }

/-- A registry holding `entryExcl` under id `"s1"`. -/
def regExcl : Registry := [("s1", entryExcl)]

/-- A concrete exclusive-mode entry with no active workflows whose only
reference is execution `"e1"`. -/
def entryLastExec : ServerEntry :=
  { port := 6000, path := "/ws", address := some 6000
  , clients := []
  , activeExecutions := ["e1"], activeWorkflows := []
  , serverSharing := "exclusive", createdAt := 0, lastActivity := 0 }

/-- A registry holding `entryLastExec` under id `"s3"`. -/
def regLastExec : Registry := [("s3", entryLastExec)]

/-- The spec's concrete scenario entry: server `"ws-5680"` on (5680, "/ws")
with exactly one connected OPEN client. -/
def entry5680 : ServerEntry :=
  { port := 5680, path := "/ws", address := some 5680
  , clients := [("abc123", ⟨ReadyState.opened, false⟩)]
  , activeExecutions := [], activeWorkflows := []
  , serverSharing := "shared", createdAt := 0, lastActivity := 0 }

/-- A registry holding `entry5680` under id `"ws-5680"`. -/
def reg5680 : Registry := [("ws-5680", entry5680)]

/-- The spec's concrete scenario config: port 5680, path "/ws". -/
def cfg5680 : ServerConfig := { port := 5680, path := "/ws" }

/-- An entry whose listener never bound: `wss.address()` is not an object. -/
def entryUnbound : ServerEntry :=
  { port := 5680, path := "/ws", address := none
  , clients := [("abc123", ⟨ReadyState.opened, false⟩)]
  , activeExecutions := [], activeWorkflows := []
  , serverSharing := "shared", createdAt := 0, lastActivity := 0 }

/-- A registry holding `entryUnbound` under id `"s7"`. -/
def regUnbound : Registry := [("s7", entryUnbound)]

/-- A config that differs from `entryUnbound` in both port and path. -/
def cfgOther : ServerConfig := { port := 5681, path := "/other" }

/-- A concrete heartbeat client table: `"a"` has answered its last ping,
`"b"` has not. -/
def hbTbl : List (String × HBClient) := [("a", ⟨true⟩), ("b", ⟨false⟩)]

/-- A send environment whose first two attempts fail with a transport error
and whose third succeeds. -/
def envTwoFailures : Nat → Option SendErr :=
  fun n => if n < 2 then some (SendErr.transport "send failed") else none

/-- A credential store configured for header authentication. -/
def credsHdr : CredStore :=
  { httpHeaderAuth := some ⟨"X-Api-Key", "secret"⟩ }

/-- A credential store configured for basic authentication. -/
def credsBasic : CredStore :=
  { httpBasicAuth := some ⟨"alice", "pw"⟩ }

/-- An upgrade request carrying no credential of any kind. -/
def reqEmpty : UpgradeReq := {}

/-- A jwt verifier stand-in that rejects every token. -/
def jvReject : String → String → String → Except String (List (String × String)) :=
  fun _ _ _ => Except.error "invalid signature"

/-- Keys of an association list. -/
theorem lookupA_eq_none_of_not_mem {α : Type u} (m : List (String × α)) (k : String)
    (h : k ∉ m.map Prod.fst) : lookupA m k = none := by
  induction m with
  | nil => rfl
  | cons p rest ih =>
    simp only [List.map_cons, List.mem_cons, not_or] at h
    have hk : p.1 ≠ k := fun hk => h.1 hk.symm
    simp only [lookupA, if_neg hk]
    exact ih h.2

theorem lookupA_mem {α : Type u} (m : List (String × α)) (k : String) (v : α)
    (h : lookupA m k = some v) : (k, v) ∈ m := by
  induction m with
  | nil => simp [lookupA] at h
  | cons p rest ih =>
    by_cases hk : p.1 = k
    · simp only [lookupA, if_pos hk] at h
      cases h
      cases p with
      | mk k1 v1 =>
        cases hk
        exact List.mem_cons_self _ _
    · simp only [lookupA, if_neg hk] at h
      exact List.mem_cons_of_mem _ (ih h)

theorem lookupA_eq_of_mem_nodup {α : Type u} (m : List (String × α)) (k : String) (v : α)
    (hnd : (m.map Prod.fst).Nodup) (h : (k, v) ∈ m) : lookupA m k = some v := by
  induction m with
  | nil => cases h
  | cons p rest ih =>
    simp only [List.map_cons, List.nodup_cons] at hnd
    rcases List.mem_cons.mp h with h | h
    · cases h.symm
      simp [lookupA]
    · have hk : p.1 ≠ k := by
        intro hk
        exact hnd.1 (hk ▸ (List.mem_map.mpr ⟨(k, v), h, rfl⟩))
      simp only [lookupA, if_neg hk]
      exact ih hnd.2 h

theorem lookupA_setA_self {α : Type u} (m : List (String × α)) (k : String) (v0 v : α)
    (h : lookupA m k = some v0) : lookupA (setA m k v) k = some v := by
  induction m with
  | nil => simp [lookupA] at h
  | cons p rest ih =>
    by_cases hk : p.1 = k
    · simp [setA, if_pos hk, lookupA]
    · simp only [lookupA, if_neg hk] at h
      simp only [setA, if_neg hk, lookupA, if_neg hk]
      exact ih h

theorem setA_self {α : Type u} (m : List (String × α)) (k : String) (v : α)
    (h : lookupA m k = some v) : setA m k v = m := by
  induction m with
  | nil => simp [lookupA] at h
  | cons p rest ih =>
    by_cases hk : p.1 = k
    · simp only [lookupA, if_pos hk] at h
      cases h
      simp only [setA, if_pos hk]
      cases p
      cases hk
      rfl
    · simp only [lookupA, if_neg hk] at h
      simp only [setA, if_neg hk]
      exact congrArg _ (ih h)

theorem lookupA_append_self {α : Type u} (m : List (String × α)) (k : String) (v : α)
    (h : lookupA m k = none) : lookupA (m ++ [(k, v)]) k = some v := by
  induction m with
  | nil => simp [lookupA]
  | cons p rest ih =>
    by_cases hk : p.1 = k
    · simp [lookupA, if_pos hk] at h
    · simp only [lookupA, if_neg hk] at h
      simp only [List.cons_append, lookupA, if_neg hk]
      exact ih h

theorem lookupA_insertA_self {α : Type u} (m : List (String × α)) (k : String) (v : α) :
    lookupA (insertA m k v) k = some v := by
  unfold insertA
  cases h : lookupA m k with
  | none => exact lookupA_append_self m k v h
  | some v0 => exact lookupA_setA_self m k v0 v h

theorem lookupA_eraseFirstA_self {α : Type u} (m : List (String × α)) (k : String)
    (hnd : (m.map Prod.fst).Nodup) : lookupA (eraseFirstA m k) k = none := by
  induction m with
  | nil => rfl
  | cons p rest ih =>
    simp only [List.map_cons, List.nodup_cons] at hnd
    by_cases hk : p.1 = k
    · simp only [eraseFirstA, if_pos hk]
      exact lookupA_eq_none_of_not_mem rest k (hk ▸ hnd.1)
    · simp only [eraseFirstA, if_neg hk, lookupA, if_neg hk]
      exact ih hnd.2

theorem keepClientsAliveOf_eq_false_iff (opts : CloseOptions) :
    keepClientsAliveOf opts = false ↔ opts.keepClientsAlive = some false := by
  cases h : opts.keepClientsAlive with
  | none => simp [keepClientsAliveOf, h]
  | some b => cases b <;> simp [keepClientsAliveOf, h]

theorem shouldCompletelyClose_eq_true_iff (e : ServerEntry) (opts : CloseOptions) :
    shouldCompletelyClose e opts = true ↔
      (e.serverSharing = "exclusive" ∨ (e.activeExecutions = [] ∧ e.activeWorkflows = []) ∨
        opts.keepClientsAlive = some false) := by
  simp only [shouldCompletelyClose, Bool.or_eq_true, Bool.and_eq_true, beq_iff_eq,
    Bool.not_eq_true', decide_eq_false_iff_not, Nat.not_lt, Nat.le_zero,
    List.length_eq_zero, keepClientsAliveOf_eq_false_iff]
  tauto

/-- C1: for a registered entry, `closeServer(id, options)` performs a hard
close (close frame to every OPEN client connection, listener unbound, entry
removed from the registry) exactly when the sharing mode is exclusive, or both
reference-count sets are empty, or `options.keepClientsAlive` is `false`;
otherwise the call is a soft close that leaves the state untouched. -/
theorem closeServer_hardClose_iff_spec (reg : Registry) (serverId : String) (opts : CloseOptions)
    (e : ServerEntry) (hnd : (reg.map Prod.fst).Nodup) (h : lookupA reg serverId = some e) :
    ((closeServer reg serverId opts).hardClosed = true ↔
      (e.serverSharing = "exclusive" ∨ (e.activeExecutions = [] ∧ e.activeWorkflows = []) ∨
        opts.keepClientsAlive = some false))
    ∧ ((closeServer reg serverId opts).hardClosed = true →
        (closeServer reg serverId opts).servers = eraseFirstA reg serverId ∧
        lookupA (closeServer reg serverId opts).servers serverId = none ∧
        (closeServer reg serverId opts).closedClients = openClientIds e.clients ∧
        (closeServer reg serverId opts).listenerUnbound = true)
    ∧ ((closeServer reg serverId opts).hardClosed = false →
        (closeServer reg serverId opts).servers = reg ∧
        (closeServer reg serverId opts).closedClients = [] ∧
        (closeServer reg serverId opts).listenerUnbound = false) := by
  have hiff := shouldCompletelyClose_eq_true_iff e opts
  have hred : closeServer reg serverId opts =
      (if shouldCompletelyClose e opts then
        (⟨eraseFirstA reg serverId, true, openClientIds e.clients, true⟩ : CloseResult)
      else ⟨reg, false, [], false⟩) := by
    unfold closeServer
    rw [h]
  rw [hred]
  by_cases hc : shouldCompletelyClose e opts = true
  · rw [if_pos hc]
    refine ⟨iff_of_true rfl (hiff.mp hc),
      fun _ => ⟨rfl, lookupA_eraseFirstA_self reg serverId hnd, rfl, rfl⟩,
      fun hfalse => ?_⟩
    exact absurd hfalse (by simp)
  · rw [if_neg hc]
    refine ⟨iff_of_false (by simp) (fun hp => hc (hiff.mpr hp)),
      fun htrue => absurd htrue (by simp),
      fun _ => ⟨rfl, rfl, rfl⟩⟩

/-- C1 witness: an exclusive entry with a live execution and workflow is still
hard-closed by `closeServer("s1", keepClientsAlive: true)`: its one OPEN
client is disconnected and the entry disappears from the registry. -/
theorem closeServer_hardClose_witness :
    (closeServer regExcl "s1" { keepClientsAlive := some true }).hardClosed = true ∧
    lookupA (closeServer regExcl "s1" { keepClientsAlive := some true }).servers "s1" = none ∧
    (closeServer regExcl "s1" { keepClientsAlive := some true }).closedClients = ["abc123"] := by
  have h := closeServer_hardClose_iff_spec regExcl "s1" { keepClientsAlive := some true }
    entryExcl (by decide) (by decide)
  have hb : (closeServer regExcl "s1" { keepClientsAlive := some true }).hardClosed = true :=
    h.1.mpr (Or.inl (by decide))
  exact ⟨hb, ((h.2.1) hb).2.1, (((h.2.1) hb).2.2.1).trans (by decide)⟩

theorem configChanged_eq_false_iff (currentPort : Nat) (e : ServerEntry)
    (cfg : ServerConfig) :
    configChanged currentPort e cfg = false ↔
      (currentPort = cfg.port ∧ e.path = cfg.path ∧ e.serverSharing = sharingOf cfg) := by
  simp [configChanged, and_assoc]

theorem configChanged_fresh (cfg : ServerConfig) (now : Nat) (pu : List Nat) :
    configChanged cfg.port (freshEntry cfg now pu) cfg = false := by
  simp [configChanged, freshEntry]

theorem updateLastActivity_eq_self (m : Registry) (serverId : String) (now : Nat)
    (e : ServerEntry) (hl : lookupA m serverId = some e) (hn : e.lastActivity = now) :
    updateLastActivity m serverId now = m := by
  unfold updateLastActivity
  rw [hl]
  show setA m serverId { e with lastActivity := now } = m
  have he : { e with lastActivity := now } = e := by
    cases e
    cases hn
    rfl
  rw [he]
  exact setA_self m serverId e hl

theorem lookupA_updateLastActivity (m : Registry) (serverId : String) (now : Nat)
    (e : ServerEntry) (hl : lookupA m serverId = some e) :
    lookupA (updateLastActivity m serverId now) serverId = some { e with lastActivity := now } := by
  unfold updateLastActivity
  rw [hl]
  show lookupA (setA m serverId { e with lastActivity := now }) serverId =
    some { e with lastActivity := now }
  exact lookupA_setA_self m serverId e _ hl

theorem closeServer_eq_of_hard (reg : Registry) (serverId : String) (opts : CloseOptions)
    (e : ServerEntry) (hl : lookupA reg serverId = some e)
    (hcc : shouldCompletelyClose e opts = true) :
    closeServer reg serverId opts =
      ⟨eraseFirstA reg serverId, true, openClientIds e.clients, true⟩ := by
  unfold closeServer
  rw [hl]
  simp [hcc]

theorem goc_eq_of_match (reg : Registry) (serverId : String) (cfg : ServerConfig) (now : Nat)
    (pu : List Nat) (e : ServerEntry) (currentPort : Nat)
    (hl : lookupA reg serverId = some e) (ha : e.address = some currentPort)
    (hc : configChanged currentPort e cfg = false) :
    getOrCreateServer reg serverId cfg now pu =
      { servers := updateLastActivity reg serverId now
      , listenerPort := some currentPort, listenerPath := e.path
      , didBind := false, closedStale := false, closedClients := []
      , bindErrorLogged := false } := by
  unfold getOrCreateServer
  rw [hl]
  simp [ha, hc]

theorem goc_eq_of_changed (reg : Registry) (serverId : String) (cfg : ServerConfig) (now : Nat)
    (pu : List Nat) (e : ServerEntry) (currentPort : Nat)
    (hl : lookupA reg serverId = some e) (ha : e.address = some currentPort)
    (hc : configChanged currentPort e cfg = true) :
    getOrCreateServer reg serverId cfg now pu =
      { servers :=
          insertA (closeServer reg serverId
            { keepClientsAlive := some false, reason := some "config_change" }).servers
            serverId (freshEntry cfg now pu)
      , listenerPort := (freshEntry cfg now pu).address
      , listenerPath := (freshEntry cfg now pu).path
      , didBind := true, closedStale := true
      , closedClients := (closeServer reg serverId
          { keepClientsAlive := some false, reason := some "config_change" }).closedClients
      , bindErrorLogged := pu.contains cfg.port } := by
  unfold getOrCreateServer createServer
  rw [hl]
  simp [ha, hc]

theorem goc_eq_of_unbound (reg : Registry) (serverId : String) (cfg : ServerConfig) (now : Nat)
    (pu : List Nat) (e : ServerEntry)
    (hl : lookupA reg serverId = some e) (ha : e.address = none) :
    getOrCreateServer reg serverId cfg now pu =
      { servers := updateLastActivity reg serverId now
      , listenerPort := none, listenerPath := e.path
      , didBind := false, closedStale := false, closedClients := []
      , bindErrorLogged := false } := by
  unfold getOrCreateServer
  rw [hl]
  simp [ha]

theorem goc_eq_of_absent (reg : Registry) (serverId : String) (cfg : ServerConfig) (now : Nat)
    (pu : List Nat) (hl : lookupA reg serverId = none) :
    getOrCreateServer reg serverId cfg now pu =
      { servers := insertA reg serverId (freshEntry cfg now pu)
      , listenerPort := (freshEntry cfg now pu).address
      , listenerPath := (freshEntry cfg now pu).path
      , didBind := true, closedStale := false, closedClients := []
      , bindErrorLogged := pu.contains cfg.port } := by
  unfold getOrCreateServer createServer
  rw [hl]

/-- C2 counterexample: an entry whose listener reports no bound address (as a
bind-failed entry does) together with a config that differs in port and path:
`getOrCreateServer` performs no hard close and no recreation — it skips the
config check under the source's `address && typeof address === "object"`
guard and returns the stale entry as is (only its activity refreshed). -/
theorem getOrCreateServer_unbound_stale_cex :
    entryUnbound.path ≠ cfgOther.path ∧
    (getOrCreateServer regUnbound "s7" cfgOther 9 []).didBind = false ∧
    (getOrCreateServer regUnbound "s7" cfgOther 9 []).closedStale = false ∧
    (getOrCreateServer regUnbound "s7" cfgOther 9 []).closedClients = [] ∧
    lookupA (getOrCreateServer regUnbound "s7" cfgOther 9 []).servers "s7" =
      some { entryUnbound with lastActivity := 9 } := by
  decide

/-- C2 amended: the config-change check of `getOrCreateServer` runs only under
the source's `if (address && typeof address === "object")` guard. For an entry
whose listener reports a bound address: matching (port, path, sharingMode)
returns the existing listener with no new bind, and a mismatch first
hard-closes the stale entry (disconnecting its OPEN clients) and then creates
a new one. An entry whose listener reports no bound address skips the config
check entirely and is returned as is; a miss creates a new entry. Calling the
function twice with an identical config at the same instant remains idempotent
on the registry state and performs no second bind. -/
theorem getOrCreateServer_reuse_spec (reg : Registry) (serverId : String) (cfg : ServerConfig)
    (now : Nat) (pu : List Nat) :
    (∀ e currentPort, lookupA reg serverId = some e → e.address = some currentPort →
      configChanged currentPort e cfg = false →
      (getOrCreateServer reg serverId cfg now pu).didBind = false ∧
      (getOrCreateServer reg serverId cfg now pu).listenerPort = some currentPort ∧
      currentPort = cfg.port ∧
      (getOrCreateServer reg serverId cfg now pu).listenerPath = cfg.path ∧
      (getOrCreateServer reg serverId cfg now pu).servers = updateLastActivity reg serverId now)
    ∧ (∀ e currentPort, lookupA reg serverId = some e → e.address = some currentPort →
      configChanged currentPort e cfg = true →
      (getOrCreateServer reg serverId cfg now pu).didBind = true ∧
      (getOrCreateServer reg serverId cfg now pu).closedStale = true ∧
      (getOrCreateServer reg serverId cfg now pu).closedClients = openClientIds e.clients ∧
      lookupA (getOrCreateServer reg serverId cfg now pu).servers serverId =
        some (freshEntry cfg now pu))
    ∧ (∀ e, lookupA reg serverId = some e → e.address = none →
      (getOrCreateServer reg serverId cfg now pu).didBind = false ∧
      (getOrCreateServer reg serverId cfg now pu).closedStale = false ∧
      (getOrCreateServer reg serverId cfg now pu).closedClients = [] ∧
      (getOrCreateServer reg serverId cfg now pu).servers = updateLastActivity reg serverId now)
    ∧ (lookupA reg serverId = none →
      (getOrCreateServer reg serverId cfg now pu).didBind = true ∧
      (getOrCreateServer reg serverId cfg now pu).closedStale = false ∧
      lookupA (getOrCreateServer reg serverId cfg now pu).servers serverId =
        some (freshEntry cfg now pu))
    ∧ ((getOrCreateServer (getOrCreateServer reg serverId cfg now pu).servers
          serverId cfg now pu).servers = (getOrCreateServer reg serverId cfg now pu).servers ∧
       (getOrCreateServer (getOrCreateServer reg serverId cfg now pu).servers
          serverId cfg now pu).didBind = false ∧
       (getOrCreateServer (getOrCreateServer reg serverId cfg now pu).servers
          serverId cfg now pu).listenerPort =
         (getOrCreateServer reg serverId cfg now pu).listenerPort ∧
       (getOrCreateServer (getOrCreateServer reg serverId cfg now pu).servers
          serverId cfg now pu).listenerPath =
         (getOrCreateServer reg serverId cfg now pu).listenerPath) := by
  refine ⟨?_, ?_, ?_, ?_, ?_⟩
  · intro e currentPort hl ha hc
    rw [goc_eq_of_match reg serverId cfg now pu e currentPort hl ha hc]
    obtain ⟨hp, hpa, _⟩ := (configChanged_eq_false_iff currentPort e cfg).mp hc
    exact ⟨rfl, rfl, hp, hpa, rfl⟩
  · intro e currentPort hl ha hc
    have hcc : shouldCompletelyClose e
        { keepClientsAlive := some false, reason := some "config_change" } = true :=
      (shouldCompletelyClose_eq_true_iff e _).mpr (Or.inr (Or.inr rfl))
    rw [goc_eq_of_changed reg serverId cfg now pu e currentPort hl ha hc,
      closeServer_eq_of_hard reg serverId _ e hl hcc]
    exact ⟨rfl, rfl, rfl, lookupA_insertA_self _ serverId (freshEntry cfg now pu)⟩
  · intro e hl ha
    rw [goc_eq_of_unbound reg serverId cfg now pu e hl ha]
    exact ⟨rfl, rfl, rfl, rfl⟩
  · intro hl
    rw [goc_eq_of_absent reg serverId cfg now pu hl]
    exact ⟨rfl, rfl, lookupA_insertA_self reg serverId (freshEntry cfg now pu)⟩
  · cases hl : lookupA reg serverId with
    | none =>
      rw [goc_eq_of_absent reg serverId cfg now pu hl]
      have hl2 : lookupA (insertA reg serverId (freshEntry cfg now pu)) serverId =
          some (freshEntry cfg now pu) :=
        lookupA_insertA_self reg serverId (freshEntry cfg now pu)
      cases hb : pu.contains cfg.port with
      | true =>
        have ha2 : (freshEntry cfg now pu).address = none := by
          simp only [freshEntry]
          rw [hb]
          rfl
        rw [goc_eq_of_unbound _ serverId cfg now pu _ hl2 ha2]
        exact ⟨updateLastActivity_eq_self _ serverId now (freshEntry cfg now pu) hl2 rfl,
          rfl, ha2.symm, rfl⟩
      | false =>
        have ha2 : (freshEntry cfg now pu).address = some cfg.port := by
          simp only [freshEntry]
          rw [hb]
          rfl
        rw [goc_eq_of_match _ serverId cfg now pu _ cfg.port hl2 ha2
          (configChanged_fresh cfg now pu)]
        exact ⟨updateLastActivity_eq_self _ serverId now (freshEntry cfg now pu) hl2 rfl,
          rfl, ha2.symm, rfl⟩
    | some e =>
      cases ha : e.address with
      | none =>
        rw [goc_eq_of_unbound reg serverId cfg now pu e hl ha]
        have hl2 := lookupA_updateLastActivity reg serverId now e hl
        have ha2 : ({ e with lastActivity := now } : ServerEntry).address = none := ha
        rw [goc_eq_of_unbound _ serverId cfg now pu _ hl2 ha2]
        exact ⟨updateLastActivity_eq_self _ serverId now _ hl2 rfl, rfl, rfl, rfl⟩
      | some currentPort =>
        cases hc : configChanged currentPort e cfg with
        | false =>
          rw [goc_eq_of_match reg serverId cfg now pu e currentPort hl ha hc]
          have hl2 := lookupA_updateLastActivity reg serverId now e hl
          have ha2 : ({ e with lastActivity := now } : ServerEntry).address =
              some currentPort := ha
          rw [goc_eq_of_match _ serverId cfg now pu _ currentPort hl2 ha2 hc]
          exact ⟨updateLastActivity_eq_self _ serverId now _ hl2 rfl, rfl, rfl, rfl⟩
        | true =>
          rw [goc_eq_of_changed reg serverId cfg now pu e currentPort hl ha hc]
          have hl2 : lookupA (insertA (closeServer reg serverId
              { keepClientsAlive := some false, reason := some "config_change" }).servers
              serverId (freshEntry cfg now pu)) serverId = some (freshEntry cfg now pu) :=
            lookupA_insertA_self _ serverId (freshEntry cfg now pu)
          cases hb : pu.contains cfg.port with
          | true =>
            have ha2 : (freshEntry cfg now pu).address = none := by
              simp only [freshEntry]
              rw [hb]
              rfl
            rw [goc_eq_of_unbound _ serverId cfg now pu _ hl2 ha2]
            exact ⟨updateLastActivity_eq_self _ serverId now (freshEntry cfg now pu) hl2 rfl,
              rfl, ha2.symm, rfl⟩
          | false =>
            have ha2 : (freshEntry cfg now pu).address = some cfg.port := by
              simp only [freshEntry]
              rw [hb]
              rfl
            rw [goc_eq_of_match _ serverId cfg now pu _ cfg.port hl2 ha2
              (configChanged_fresh cfg now pu)]
            exact ⟨updateLastActivity_eq_self _ serverId now (freshEntry cfg now pu) hl2 rfl,
              rfl, ha2.symm, rfl⟩

/-- C2 witness: creating `"ws-5680"` on (5680, "/ws") in an empty registry
binds once; the second identical call does not bind again, returns the same
bound port and leaves the registry exactly as the first call left it. -/
theorem getOrCreateServer_reuse_witness :
    (getOrCreateServer [] "ws-5680" cfg5680 7 []).didBind = true ∧
    (getOrCreateServer (getOrCreateServer [] "ws-5680" cfg5680 7 []).servers
      "ws-5680" cfg5680 7 []).didBind = false ∧
    (getOrCreateServer (getOrCreateServer [] "ws-5680" cfg5680 7 []).servers
      "ws-5680" cfg5680 7 []).servers = (getOrCreateServer [] "ws-5680" cfg5680 7 []).servers ∧
    (getOrCreateServer (getOrCreateServer [] "ws-5680" cfg5680 7 []).servers
      "ws-5680" cfg5680 7 []).listenerPort = some 5680 := by
  have h := getOrCreateServer_reuse_spec [] "ws-5680" cfg5680 7 []
  have habs := h.2.2.2.1 rfl
  exact ⟨habs.1, h.2.2.2.2.2.1, h.2.2.2.2.1,
    (h.2.2.2.2.2.2.1).trans (by decide)⟩

/-- C3 counterexample: on an exclusive entry with no active workflows,
removing the last execution via `unregisterExecution` schedules no deferred
close at all; the entry stays registered with its executions emptied. -/
theorem unregisterExecution_no_deferred_close_cex :
    (unregisterExecution regLastExec "s3" "e1" 5).scheduledClose = none ∧
    lookupA (unregisterExecution regLastExec "s3" "e1" 5).servers "s3" =
      some { entryLastExec with activeExecutions := [], lastActivity := 5 } := by
  decide

/-- C3 amended: `unregisterExecution` never schedules a close; the deferred
hard close after a 1000 ms grace window is triggered by `unregisterWorkflow`
when removing the given workflow empties `activeWorkflows` on an
exclusive-mode entry, and the scheduled close (keepClientsAlive: false) is a
hard close for that entry. -/
theorem deferredClose_on_unregisterWorkflow_spec (reg : Registry)
    (serverId workflowId : String) (now : Nat) :
    (∀ executionId, (unregisterExecution reg serverId executionId now).scheduledClose = none)
    ∧ (∀ e, lookupA reg serverId = some e → workflowId ≠ "" →
        (unregisterWorkflow reg serverId workflowId now).scheduledClose =
          (if removeS e.activeWorkflows workflowId = [] ∧ e.serverSharing = "exclusive" then
            some (1000,
              { keepClientsAlive := some false, reason := some "last_workflow_removed" })
          else none))
    ∧ (∀ e, lookupA reg serverId = some e →
        shouldCompletelyClose e
          { keepClientsAlive := some false, reason := some "last_workflow_removed" } = true) := by
  refine ⟨?_, ?_, ?_⟩
  · intro executionId
    unfold unregisterExecution
    cases lookupA reg serverId with
    | none => rfl
    | some e => split <;> first | rfl | (split <;> rfl)
  · intro e hl hw
    unfold unregisterWorkflow
    rw [hl]
    show (if workflowId = "" then (⟨reg, none⟩ : UnregResult)
      else ⟨setA reg serverId
        { e with activeWorkflows := removeS e.activeWorkflows workflowId, lastActivity := now },
        if (removeS e.activeWorkflows workflowId).length == 0 &&
            (e.serverSharing == "exclusive") then
          some (1000, { keepClientsAlive := some false, reason := some "last_workflow_removed" })
        else none⟩).scheduledClose = _
    rw [if_neg hw]
    by_cases hcond : removeS e.activeWorkflows workflowId = [] ∧ e.serverSharing = "exclusive"
    · simp [hcond.1, hcond.2]
    · rw [if_neg hcond]
      simp only [Bool.and_eq_true, beq_iff_eq, List.length_eq_zero]
      rw [if_neg hcond]
  · intro e _
    exact (shouldCompletelyClose_eq_true_iff e _).mpr (Or.inr (Or.inr rfl))

/-- C3 witness: removing the last workflow `"w1"` from the exclusive entry
`"s1"` schedules the hard close 1000 ms later, while unregistering an
execution on the same entry schedules nothing. -/
theorem deferredClose_on_unregisterWorkflow_witness :
    (unregisterWorkflow regExcl "s1" "w1" 5).scheduledClose =
      some (1000, { keepClientsAlive := some false, reason := some "last_workflow_removed" }) ∧
    (unregisterExecution regExcl "s1" "e1" 5).scheduledClose = none := by
  have h := deferredClose_on_unregisterWorkflow_spec regExcl "s1" "w1" 5
  have h2 := h.2.1 entryExcl (by decide) (by decide)
  exact ⟨h2.trans (by decide), h.1 "e1"⟩

/-- C10: for an unregistered server id, and likewise for an empty execution or
workflow identifier, each of `registerExecution`, `unregisterExecution`,
`registerWorkflow` and `unregisterWorkflow` returns normally, schedules
nothing, and leaves the registry state completely unchanged. -/
theorem register_frame_spec (reg : Registry) (serverId refId : String) (now : Nat)
    (h : lookupA reg serverId = none ∨ refId = "") :
    registerExecution reg serverId refId now = reg ∧
    (unregisterExecution reg serverId refId now).servers = reg ∧
    (unregisterExecution reg serverId refId now).scheduledClose = none ∧
    registerWorkflow reg serverId refId now = reg ∧
    (unregisterWorkflow reg serverId refId now).servers = reg ∧
    (unregisterWorkflow reg serverId refId now).scheduledClose = none := by
  rcases h with h | h
  · unfold registerExecution unregisterExecution registerWorkflow unregisterWorkflow
    rw [h]
    exact ⟨rfl, rfl, rfl, rfl, rfl, rfl⟩
  · subst h
    unfold registerExecution unregisterExecution registerWorkflow unregisterWorkflow
    cases lookupA reg serverId with
    | none => exact ⟨rfl, rfl, rfl, rfl, rfl, rfl⟩
    | some e => exact ⟨rfl, rfl, rfl, rfl, rfl, rfl⟩

/-- C10 witness: on the concrete scenario registry, the four calls with the
unknown server id `"nope"` and the calls with an empty identifier all leave
the registry untouched. -/
theorem register_frame_witness :
    registerExecution reg5680 "nope" "e1" 3 = reg5680 ∧
    (unregisterWorkflow reg5680 "nope" "w1" 3).servers = reg5680 ∧
    registerWorkflow reg5680 "ws-5680" "" 3 = reg5680 := by
  have h1 := register_frame_spec reg5680 "nope" "e1" 3 (Or.inl (by decide))
  have h2 := register_frame_spec reg5680 "nope" "w1" 3 (Or.inl (by decide))
  have h3 := register_frame_spec reg5680 "ws-5680" "" 3 (Or.inr rfl)
  exact ⟨h1.1, h2.2.2.2.2.1, h3.2.2.2.1⟩

theorem hb_keys_sublist (cs : List (String × HBClient)) :
    ((heartbeatStep cs).clients.map Prod.fst).Sublist (cs.map Prod.fst) := by
  induction cs with
  | nil => exact List.Sublist.slnil
  | cons p rest ih =>
    cases ha : p.2.isAlive with
    | true =>
      have hcl : (heartbeatStep (p :: rest)).clients =
          (p.1, ⟨false⟩) :: (heartbeatStep rest).clients := by
        simp [heartbeatStep, ha]
      rw [hcl, List.map_cons, List.map_cons]
      exact List.Sublist.cons₂ _ ih
    | false =>
      have hcl : (heartbeatStep (p :: rest)).clients = (heartbeatStep rest).clients := by
        simp [heartbeatStep, ha]
      rw [hcl, List.map_cons]
      exact List.Sublist.cons _ ih

theorem hb_lookup_step (cs : List (String × HBClient)) (cid : String)
    (hnd : (cs.map Prod.fst).Nodup) :
    lookupA (heartbeatStep cs).clients cid =
      (lookupA cs cid).bind (fun c => if c.isAlive then some ⟨false⟩ else none) := by
  induction cs with
  | nil => rfl
  | cons p rest ih =>
    simp only [List.map_cons, List.nodup_cons] at hnd
    by_cases hk : p.1 = cid
    · cases ha : p.2.isAlive with
      | true =>
        have hcl : (heartbeatStep (p :: rest)).clients =
            (p.1, ⟨false⟩) :: (heartbeatStep rest).clients := by
          simp [heartbeatStep, ha]
        rw [hcl]
        simp [lookupA, hk, ha]
      | false =>
        have hcl : (heartbeatStep (p :: rest)).clients = (heartbeatStep rest).clients := by
          simp [heartbeatStep, ha]
        rw [hcl]
        have hnm : cid ∉ rest.map Prod.fst := hk ▸ hnd.1
        have hnm2 : cid ∉ (heartbeatStep rest).clients.map Prod.fst :=
          fun hmem => hnm ((hb_keys_sublist rest).subset hmem)
        rw [lookupA_eq_none_of_not_mem _ cid hnm2]
        simp [lookupA, hk, ha]
    · cases ha : p.2.isAlive with
      | true =>
        have hcl : (heartbeatStep (p :: rest)).clients =
            (p.1, ⟨false⟩) :: (heartbeatStep rest).clients := by
          simp [heartbeatStep, ha]
        rw [hcl]
        simp only [lookupA, if_neg hk]
        exact ih hnd.2
      | false =>
        have hcl : (heartbeatStep (p :: rest)).clients = (heartbeatStep rest).clients := by
          simp [heartbeatStep, ha]
        rw [hcl]
        simp only [lookupA, if_neg hk]
        exact ih hnd.2

theorem hb_terminated_of_dead (cs : List (String × HBClient)) (cid : String) (c : HBClient)
    (h : lookupA cs cid = some c) (hd : c.isAlive = false) :
    cid ∈ (heartbeatStep cs).terminated := by
  have hm : (cid, c) ∈ cs := lookupA_mem cs cid c h
  have hf : (cid, c) ∈ cs.filter (fun p => !p.2.isAlive) :=
    List.mem_filter.mpr ⟨hm, by simp [hd]⟩
  show cid ∈ (cs.filter (fun p => !p.2.isAlive)).map (fun p => p.1)
  exact List.mem_map.mpr ⟨(cid, c), hf, rfl⟩

theorem hb_pinged_of_alive (cs : List (String × HBClient)) (cid : String) (c : HBClient)
    (h : lookupA cs cid = some c) (ha : c.isAlive = true) :
    cid ∈ (heartbeatStep cs).pinged := by
  have hm : (cid, c) ∈ cs := lookupA_mem cs cid c h
  have hf : (cid, c) ∈ cs.filter (fun p => p.2.isAlive) :=
    List.mem_filter.mpr ⟨hm, by simp [ha]⟩
  show cid ∈ (cs.filter (fun p => p.2.isAlive)).map (fun p => p.1)
  exact List.mem_map.mpr ⟨(cid, c), hf, rfl⟩

theorem hb_not_terminated_of_alive (cs : List (String × HBClient)) (cid : String) (c : HBClient)
    (hnd : (cs.map Prod.fst).Nodup) (h : lookupA cs cid = some c) (ha : c.isAlive = true) :
    cid ∉ (heartbeatStep cs).terminated := by
  intro hmem
  simp only [heartbeatStep] at hmem
  rcases List.mem_map.mp hmem with ⟨p, hp, hfst⟩
  rcases List.mem_filter.mp hp with ⟨hpcs, hpdead⟩
  rcases p with ⟨k, v⟩
  cases hfst
  have hv := lookupA_eq_of_mem_nodup cs k v hnd hpcs
  rw [h] at hv
  cases hv
  simp [ha] at hpdead

/-- C4: under the heartbeat cycle of src/unnamed/part_001, a client whose
liveness is positive is sent a ping and its liveness is marked negative
pending a pong; a client whose liveness was still negative when the cycle
starts is removed from the client table and forcibly terminated. Hence a
client that answers no pong between two consecutive cycles is gone from the
table and terminated by the second cycle. -/
theorem heartbeat_eviction_spec (cs : List (String × HBClient)) (cid : String) (c : HBClient)
    (hnd : (cs.map Prod.fst).Nodup) (h : lookupA cs cid = some c) :
    (c.isAlive = true →
      lookupA (heartbeatStep cs).clients cid = some ⟨false⟩ ∧
      cid ∈ (heartbeatStep cs).pinged ∧
      cid ∉ (heartbeatStep cs).terminated)
    ∧ (c.isAlive = false →
      lookupA (heartbeatStep cs).clients cid = none ∧
      cid ∈ (heartbeatStep cs).terminated)
    ∧ (c.isAlive = true →
      lookupA (heartbeatStep (heartbeatStep cs).clients).clients cid = none ∧
      cid ∈ (heartbeatStep (heartbeatStep cs).clients).terminated) := by
  have hstep := hb_lookup_step cs cid hnd
  have hnd2 : ((heartbeatStep cs).clients.map Prod.fst).Nodup :=
    hnd.sublist (hb_keys_sublist cs)
  refine ⟨?_, ?_, ?_⟩
  · intro ha
    refine ⟨?_, hb_pinged_of_alive cs cid c h ha, hb_not_terminated_of_alive cs cid c hnd h ha⟩
    rw [hstep, h]
    simp [ha]
  · intro ha
    refine ⟨?_, hb_terminated_of_dead cs cid c h ha⟩
    rw [hstep, h]
    simp [ha]
  · intro ha
    have h1 : lookupA (heartbeatStep cs).clients cid = some ⟨false⟩ := by
      rw [hstep, h]
      simp [ha]
    constructor
    · rw [hb_lookup_step (heartbeatStep cs).clients cid hnd2, h1]
      rfl
    · exact hb_terminated_of_dead (heartbeatStep cs).clients cid ⟨false⟩ h1 rfl

/-- C4 witness: in the table where `"a"` answered its last ping and `"b"` did
not, one heartbeat cycle terminates and removes `"b"` and pings `"a"`; `"a"`,
answering no pong in between, is terminated and removed by the second
cycle. -/
theorem heartbeat_eviction_witness :
    lookupA (heartbeatStep hbTbl).clients "b" = none ∧
    "b" ∈ (heartbeatStep hbTbl).terminated ∧
    "a" ∈ (heartbeatStep hbTbl).pinged ∧
    lookupA (heartbeatStep (heartbeatStep hbTbl).clients).clients "a" = none ∧
    "a" ∈ (heartbeatStep (heartbeatStep hbTbl).clients).terminated := by
  have hb := heartbeat_eviction_spec hbTbl "b" ⟨false⟩ (by decide) (by decide)
  have ha := heartbeat_eviction_spec hbTbl "a" ⟨true⟩ (by decide) (by decide)
  exact ⟨(hb.2.1 rfl).1, (hb.2.1 rfl).2, (ha.1 rfl).2.1, (ha.2.2 rfl).1, (ha.2.2 rfl).2⟩

/-- C5 counterexample: in the spec's concrete scenario (server `"ws-5680"`
with exactly one connected OPEN client), `broadcastToServer` computes an
internal `sentCount` of 1 and runs the caller's callback once, but the value
the function itself returns is the unit of its `void` return type, not the
count. -/
theorem broadcastToServer_returns_void_cex :
    (broadcastToServer reg5680 "ws-5680" "pong" 1).returned = () ∧
    (broadcastToServer reg5680 "ws-5680" "pong" 1).sentCount = 1 ∧
    (broadcastToServer reg5680 "ws-5680" "pong" 1).callbackCalls = 1 := by
  decide

/-- C5 amended: `broadcastToServer` iterates the server's clients, sends to
each OPEN client, continues past individual send failures, and counts the
successful sends in a local `sentCount` that is logged and signalled to the
caller once per success through the optional callback — the function's own
return value is void. -/
theorem broadcastToServer_count_spec (reg : Registry) (serverId message : String) (now : Nat)
    (e : ServerEntry) (h : lookupA reg serverId = some e) :
    (broadcastToServer reg serverId message now).found = true ∧
    (broadcastToServer reg serverId message now).returned = () ∧
    (∀ cid c, (cid, c) ∈ e.clients → c.readyState = ReadyState.opened → c.sendFails = false →
      cid ∈ (broadcastToServer reg serverId message now).sentTo) ∧
    (broadcastToServer reg serverId message now).sentCount =
      (e.clients.filter
        (fun p => p.2.readyState == ReadyState.opened && !p.2.sendFails)).length ∧
    (broadcastToServer reg serverId message now).callbackCalls =
      (broadcastToServer reg serverId message now).sentCount ∧
    (broadcastToServer reg serverId message now).errorCount =
      (e.clients.filter
        (fun p => p.2.readyState == ReadyState.opened && p.2.sendFails)).length ∧
    (broadcastToServer reg serverId message now).servers =
      updateLastActivity reg serverId now := by
  have hred : broadcastToServer reg serverId message now =
      { servers := updateLastActivity reg serverId now
      , found := true
      , sentTo := (e.clients.filter
          (fun p => p.2.readyState == ReadyState.opened && !p.2.sendFails)).map (fun p => p.1)
      , sentCount := (e.clients.filter
          (fun p => p.2.readyState == ReadyState.opened && !p.2.sendFails)).length
      , errorCount := (e.clients.filter
          (fun p => p.2.readyState == ReadyState.opened && p.2.sendFails)).length
      , callbackCalls := (e.clients.filter
          (fun p => p.2.readyState == ReadyState.opened && !p.2.sendFails)).length
      , returned := () } := by
    unfold broadcastToServer
    rw [h]
  rw [hred]
  refine ⟨rfl, rfl, ?_, rfl, rfl, rfl, rfl⟩
  intro cid c hm ho hs
  exact List.mem_map.mpr ⟨(cid, c), List.mem_filter.mpr ⟨hm, by simp [ho, hs]⟩, rfl⟩

/-- C5 witness: on the scenario registry, the broadcast reaches the single
OPEN client `"abc123"` and the computed count of successful sends is 1. -/
theorem broadcastToServer_count_witness :
    (broadcastToServer reg5680 "ws-5680" "pong" 1).found = true ∧
    (broadcastToServer reg5680 "ws-5680" "pong" 1).sentCount = 1 ∧
    "abc123" ∈ (broadcastToServer reg5680 "ws-5680" "pong" 1).sentTo := by
  have h := broadcastToServer_count_spec reg5680 "ws-5680" "pong" 1 entry5680 (by decide)
  exact ⟨h.1, (h.2.2.2.1).trans (by decide),
    h.2.2.1 "abc123" ⟨ReadyState.opened, false⟩ (by decide) rfl rfl⟩

theorem sendAttemptLoop_zero (env : Nat → Option SendErr) (a : Nat) (le : Option SendErr)
    (d : Nat) :
    sendAttemptLoop env a 0 le d =
      ⟨Except.error (DispatchError.sendFailed le), a, d⟩ := by
  rfl

theorem sendAttemptLoop_succ_ok (env : Nat → Option SendErr) (a r : Nat) (le : Option SendErr)
    (d : Nat) (h : env a = none) :
    sendAttemptLoop env a (Nat.succ r) le d =
      ⟨Except.ok (), a + 1, d + (if a == 0 then 0 else retryDelay)⟩ := by
  simp only [sendAttemptLoop]
  rw [h]

theorem sendAttemptLoop_succ_err (env : Nat → Option SendErr) (a r : Nat) (le : Option SendErr)
    (d : Nat) (e : SendErr) (h : env a = some e) :
    sendAttemptLoop env a (Nat.succ r) le d =
      sendAttemptLoop env (a + 1) r (some e) (d + (if a == 0 then 0 else retryDelay)) := by
  simp only [sendAttemptLoop]
  rw [h]

/-- C6: the response node's per-client dispatch fails immediately (no attempt,
no delay) with a client-not-found error when the client is absent; with the
client present, each attempt that finds the socket not OPEN or whose transport
send fails is retried after a 500 ms delay, success on any of the 3 attempts
is overall success, and after 3 failed attempts the last error is surfaced. -/
theorem sendToClient_retry_spec (reg : Registry) (serverId clientId : String) (now : Nat)
    (env : Nat → Option SendErr) :
    ((getClient reg serverId clientId now).2 = none →
      sendToClientWithRetry reg serverId clientId now env =
        ⟨Except.error (DispatchError.clientNotFound clientId serverId), 0, 0⟩)
    ∧ (∀ c, (getClient reg serverId clientId now).2 = some c →
      (env 0 = none →
        sendToClientWithRetry reg serverId clientId now env = ⟨Except.ok (), 1, 0⟩)
      ∧ (∀ e0, env 0 = some e0 → env 1 = none →
        sendToClientWithRetry reg serverId clientId now env = ⟨Except.ok (), 2, 500⟩)
      ∧ (∀ e0 e1, env 0 = some e0 → env 1 = some e1 → env 2 = none →
        sendToClientWithRetry reg serverId clientId now env = ⟨Except.ok (), 3, 1000⟩)
      ∧ (∀ e0 e1 e2, env 0 = some e0 → env 1 = some e1 → env 2 = some e2 →
        sendToClientWithRetry reg serverId clientId now env =
          ⟨Except.error (DispatchError.sendFailed (some e2)), 3, 1000⟩)) := by
  constructor
  · intro hn
    unfold sendToClientWithRetry
    rw [hn]
  · intro c hc
    have hred : sendToClientWithRetry reg serverId clientId now env =
        sendAttemptLoop env 0 maxRetries none 0 := by
      unfold sendToClientWithRetry
      rw [hc]
    have h3 : maxRetries = Nat.succ (Nat.succ (Nat.succ 0)) := rfl
    refine ⟨?_, ?_, ?_, ?_⟩
    · intro h0
      rw [hred, h3, sendAttemptLoop_succ_ok env 0 (Nat.succ (Nat.succ 0)) none 0 h0]
      rfl
    · intro e0 h0 h1
      rw [hred, h3, sendAttemptLoop_succ_err env 0 (Nat.succ (Nat.succ 0)) none 0 e0 h0,
        sendAttemptLoop_succ_ok env (0 + 1) (Nat.succ 0) (some e0) _ h1]
      rfl
    · intro e0 e1 h0 h1 h2
      rw [hred, h3, sendAttemptLoop_succ_err env 0 (Nat.succ (Nat.succ 0)) none 0 e0 h0,
        sendAttemptLoop_succ_err env (0 + 1) (Nat.succ 0) (some e0) _ e1 h1,
        sendAttemptLoop_succ_ok env (0 + 1 + 1) 0 (some e1) _ h2]
      rfl
    · intro e0 e1 e2 h0 h1 h2
      rw [hred, h3, sendAttemptLoop_succ_err env 0 (Nat.succ (Nat.succ 0)) none 0 e0 h0,
        sendAttemptLoop_succ_err env (0 + 1) (Nat.succ 0) (some e0) _ e1 h1,
        sendAttemptLoop_succ_err env (0 + 1 + 1) 0 (some e1) _ e2 h2,
        sendAttemptLoop_zero env (0 + 1 + 1 + 1) (some e2) _]
      rfl

/-- C6 witness: the spec scenario — the socket of client `"abc123"` throws on
the first two attempts and succeeds on the third: overall success with exactly
3 attempts and 1000 ms of retry delay; a missing client id fails immediately
with no attempt. -/
theorem sendToClient_retry_witness :
    sendToClientWithRetry reg5680 "ws-5680" "abc123" 2 envTwoFailures =
      ⟨Except.ok (), 3, 1000⟩ ∧
    sendToClientWithRetry reg5680 "ws-5680" "ghost" 2 envTwoFailures =
      ⟨Except.error (DispatchError.clientNotFound "ghost" "ws-5680"), 0, 0⟩ := by
  have h := sendToClient_retry_spec reg5680 "ws-5680" "abc123" 2 envTwoFailures
  have hg := sendToClient_retry_spec reg5680 "ws-5680" "ghost" 2 envTwoFailures
  refine ⟨?_, hg.1 (by decide)⟩
  exact (h.2 ⟨ReadyState.opened, false⟩ (by decide)).2.2.1
    (SendErr.transport "send failed") (SendErr.transport "send failed")
    (by decide) (by decide) (by decide)

/-- C7 counterexample: with port 5680 already in use, `getOrCreateServer` on
an empty registry still constructs the listener, returns normally (its result
carries no error channel) and leaves the new entry registered; the bind
failure is only logged by the `'error'` handler. -/
theorem getOrCreateServer_bindFailure_cex :
    (getOrCreateServer [] "ws-5680" cfg5680 0 [5680]).bindErrorLogged = true ∧
    (getOrCreateServer [] "ws-5680" cfg5680 0 [5680]).didBind = true ∧
    lookupA (getOrCreateServer [] "ws-5680" cfg5680 0 [5680]).servers "ws-5680" =
      some (freshEntry cfg5680 0 [5680]) := by
  decide

/-- C7 amended: when the requested port cannot be bound, the `ws` server's
`'error'` event is only logged (the EADDRINUSE case notes "let the caller
handle it" but nothing is surfaced): `getOrCreateServer` still returns the
listener handle normally, no `BindError` reaches the caller, and the entry
remains registered. -/
theorem getOrCreateServer_bindFailure_spec (reg : Registry) (serverId : String)
    (cfg : ServerConfig) (now : Nat) (pu : List Nat)
    (hl : lookupA reg serverId = none) (hp : pu.contains cfg.port = true) :
    (getOrCreateServer reg serverId cfg now pu).bindErrorLogged = true ∧
    (getOrCreateServer reg serverId cfg now pu).didBind = true ∧
    lookupA (getOrCreateServer reg serverId cfg now pu).servers serverId =
      some (freshEntry cfg now pu) := by
  rw [goc_eq_of_absent reg serverId cfg now pu hl]
  exact ⟨hp, rfl, lookupA_insertA_self reg serverId (freshEntry cfg now pu)⟩

/-- C7 witness: creating `"ws-9999"` while port 9999 is in use logs the bind
failure yet registers the entry. -/
theorem getOrCreateServer_bindFailure_witness :
    (getOrCreateServer [] "ws-9999" { port := 9999, path := "/ws" } 1 [9999]).bindErrorLogged
      = true ∧
    lookupA (getOrCreateServer [] "ws-9999" { port := 9999, path := "/ws" } 1
      [9999]).servers "ws-9999" =
      some (freshEntry { port := 9999, path := "/ws" } 1 [9999]) := by
  have h := getOrCreateServer_bindFailure_spec [] "ws-9999" { port := 9999, path := "/ws" }
    1 [9999] (by decide) (by decide)
  exact ⟨h.1, h.2.2⟩

/-- C8 counterexample: with no entry registered, `closeServer` returns
normally and unchanged, `broadcastToServer` returns normally with zero sends,
and `broadcastToClient` returns `false`; none of them raises a
ServerNotFoundError. -/
theorem serverNotFound_silent_cex :
    closeServer [] "ws-x" {} = ⟨[], false, [], false⟩ ∧
    (broadcastToServer [] "ws-x" "hello" 0).found = false ∧
    (broadcastToServer [] "ws-x" "hello" 0).servers = [] ∧
    (broadcastToServer [] "ws-x" "hello" 0).sentCount = 0 ∧
    broadcastToClient [] "ws-x" "c1" "hello" 0 = ([], false) := by
  decide

/-- C8 amended: a close or broadcast operation on an unknown server id is a
silent no-op, not an error: `closeServer` and `broadcastToServer` log and
return normally leaving the registry unchanged, and `broadcastToClient`
reports the failure only through its `false` return value; none retries. -/
theorem serverNotFound_behavior_spec (reg : Registry) (serverId clientId message : String)
    (opts : CloseOptions) (now : Nat) (h : lookupA reg serverId = none) :
    closeServer reg serverId opts = ⟨reg, false, [], false⟩ ∧
    (broadcastToServer reg serverId message now).found = false ∧
    (broadcastToServer reg serverId message now).servers = reg ∧
    (broadcastToServer reg serverId message now).sentCount = 0 ∧
    (broadcastToServer reg serverId message now).returned = () ∧
    broadcastToClient reg serverId clientId message now = (reg, false) := by
  unfold closeServer broadcastToServer broadcastToClient
  rw [h]
  exact ⟨rfl, rfl, rfl, rfl, rfl, rfl⟩

/-- C8 witness: on the scenario registry, referencing the unknown id `"nope"`
leaves the registry unchanged and returns normally from all three
operations. -/
theorem serverNotFound_behavior_witness :
    closeServer reg5680 "nope" { reason := some "manual_close" } =
      ⟨reg5680, false, [], false⟩ ∧
    broadcastToClient reg5680 "nope" "abc123" "hi" 2 = (reg5680, false) := by
  have h := serverNotFound_behavior_spec reg5680 "nope" "abc123" "hi"
    { reason := some "manual_close" } 2 (by decide)
  exact ⟨h.1, h.2.2.2.2.2⟩

/-- C9 counterexample: with header authentication configured and an upgrade
request that carries no credential at all (no headers whatsoever), the
verification function raises 403, not the 401 the claim predicts for a
missing credential. -/
theorem headerAuth_missing_header_403_cex :
    validateWebSocketAuthentication reqEmpty "headerAuth" credsHdr jvReject =
      Except.error ⟨403, none⟩ ∧ (403 : Nat) ≠ 401 := by
  exact ⟨rfl, by decide⟩

/-- C9 amended: the verification function raises 500 when no credential data
is configured on the node (any mode) and raises nothing when verification
passes; a wholly missing credential yields 401 for basicAuth and jwtAuth
("No token provided"), while for headerAuth a missing header yields 403, the
same code as an invalid one; an invalid provided credential or token yields
403. -/
theorem validateAuth_codes_spec (req : UpgradeReq) (creds : CredStore)
    (jv : String → String → String → Except String (List (String × String))) :
    (validateWebSocketAuthentication req "none" creds jv = Except.ok none)
    ∧ (creds.httpBasicAuth = none →
      validateWebSocketAuthentication req "basicAuth" creds jv =
        Except.error ⟨500, some "No authentication data defined on node!"⟩)
    ∧ (∀ ex, creds.httpBasicAuth = some ex → ¬(ex.user = "" ∨ ex.password = "") →
      req.basicCreds = none →
      validateWebSocketAuthentication req "basicAuth" creds jv = Except.error ⟨401, none⟩)
    ∧ (∀ ex n p, creds.httpBasicAuth = some ex → ¬(ex.user = "" ∨ ex.password = "") →
      req.basicCreds = some (n, p) → ¬(n = ex.user ∧ p = ex.password) →
      validateWebSocketAuthentication req "basicAuth" creds jv = Except.error ⟨403, none⟩)
    ∧ (∀ ex n p, creds.httpBasicAuth = some ex → ¬(ex.user = "" ∨ ex.password = "") →
      req.basicCreds = some (n, p) → n = ex.user ∧ p = ex.password →
      validateWebSocketAuthentication req "basicAuth" creds jv = Except.ok none)
    ∧ (creds.httpHeaderAuth = none →
      validateWebSocketAuthentication req "headerAuth" creds jv =
        Except.error ⟨500, some "No authentication data defined on node!"⟩)
    ∧ (∀ ex, creds.httpHeaderAuth = some ex → ¬(ex.name = "" ∨ ex.value = "") →
      lookupA req.headers ex.name.toLower = none →
      validateWebSocketAuthentication req "headerAuth" creds jv = Except.error ⟨403, none⟩)
    ∧ (∀ ex v, creds.httpHeaderAuth = some ex → ¬(ex.name = "" ∨ ex.value = "") →
      lookupA req.headers ex.name.toLower = some v → v ≠ ex.value →
      validateWebSocketAuthentication req "headerAuth" creds jv = Except.error ⟨403, none⟩)
    ∧ (∀ ex, creds.httpHeaderAuth = some ex → ¬(ex.name = "" ∨ ex.value = "") →
      lookupA req.headers ex.name.toLower = some ex.value →
      validateWebSocketAuthentication req "headerAuth" creds jv = Except.ok none)
    ∧ (creds.jwtAuth = none →
      validateWebSocketAuthentication req "jwtAuth" creds jv =
        Except.error ⟨500, some "No authentication data defined on node!"⟩)
    ∧ (∀ ex, creds.jwtAuth = some ex → jwtTokenOf req = none →
      validateWebSocketAuthentication req "jwtAuth" creds jv =
        Except.error ⟨401, some "No token provided"⟩)
    ∧ (∀ ex tok m, creds.jwtAuth = some ex → jwtTokenOf req = some tok →
      jv tok (jwtKeyOf ex) ex.algorithm = Except.error m →
      validateWebSocketAuthentication req "jwtAuth" creds jv = Except.error ⟨403, some m⟩)
    ∧ (∀ ex tok payload, creds.jwtAuth = some ex → jwtTokenOf req = some tok →
      jv tok (jwtKeyOf ex) ex.algorithm = Except.ok payload →
      validateWebSocketAuthentication req "jwtAuth" creds jv = Except.ok (some payload)) := by
  refine ⟨rfl, ?_, ?_, ?_, ?_, ?_, ?_, ?_, ?_, ?_, ?_, ?_, ?_⟩
  · intro hc
    simp [validateWebSocketAuthentication, hc]
  · intro ex hc hne hb
    simp [validateWebSocketAuthentication, hc, hne, hb]
  · intro ex n p hc hne hb hw
    simp [validateWebSocketAuthentication, hc, hne, hb, hw]
  · intro ex n p hc hne hb hw
    simp [validateWebSocketAuthentication, hc, hne, hb, hw]
  · intro hc
    simp [validateWebSocketAuthentication, hc]
  · intro ex hc hne hh
    simp [validateWebSocketAuthentication, hc, hne, hh]
  · intro ex v hc hne hh hw
    simp [validateWebSocketAuthentication, hc, hne, hh, hw]
  · intro ex hc hne hh
    simp [validateWebSocketAuthentication, hc, hne, hh]
  · intro hc
    simp [validateWebSocketAuthentication, hc]
  · intro ex hc ht
    simp [validateWebSocketAuthentication, hc, ht]
  · intro ex tok m hc ht hv
    simp [validateWebSocketAuthentication, hc, ht, hv]
  · intro ex tok payload hc ht hv
    simp [validateWebSocketAuthentication, hc, ht, hv]

/-- C9 witness: with basic authentication configured and a request carrying no
Authorization credentials, verification fails with 401; mode `'none'` passes
without error. -/
theorem validateAuth_codes_witness :
    validateWebSocketAuthentication reqEmpty "basicAuth" credsBasic jvReject =
      Except.error ⟨401, none⟩ ∧
    validateWebSocketAuthentication reqEmpty "none" credsBasic jvReject = Except.ok none := by
  have h := validateAuth_codes_spec reqEmpty credsBasic jvReject
  exact ⟨h.2.2.1 ⟨"alice", "pw"⟩ rfl (by decide) rfl, h.1⟩
